import Mathlib

/-!
# Qflow type system and data-flow codec: verification of the spec's claims

Shallow embedding of the Qflow type-validation and workflow-validation
services (`src/architecture/type_based_node_linking.md`, backend
`TypeValidationService` / `WorkflowValidationService` and the frontend
`TypeValidationService`) and the `TypeConverter` data-flow codec
(`src/architecture/Qflow_Development_Plan.md`), together with proofs of
the documented properties.
-/

namespace Qflow

/-! ## Backend type registry (`TypeValidationService._initialize…` is embedded
as the literal dictionary it returns) -/

/-- `TypeCategory` enum of the backend service. -/
inductive TypeCategory where
  | BASIC
  | COLLECTION
  | SPECIAL
deriving DecidableEq, Repr

/-- The `python_type` field of a `TypeInfo` entry: a Python class, a tuple of
classes, or a string placeholder (as in `'pandas.DataFrame'`). -/
inductive PyTypeRef where
  | cls (name : String)
  | clsPair (a b : String)
  | tag (s : String)
deriving DecidableEq, Repr

/-- `TypeInfo` dataclass of the backend service. -/
structure TypeInfo where
  name : String
  category : TypeCategory
  python_type : PyTypeRef
  compatible_types : List String
  description : String
deriving DecidableEq, Repr

/-- The type registry returned by the backend service's constructor helper:
the dictionary of the 22 supported types. -/
def type_registry : List (String × TypeInfo) :=
  [ ("string", ⟨"string", .BASIC, .cls "str", ["string", "any"], "Text string"⟩),
    ("number", ⟨"number", .BASIC, .clsPair "int" "float", ["number", "integer", "float", "any"], "Numeric value"⟩),
    ("integer", ⟨"integer", .BASIC, .cls "int", ["integer", "number", "any"], "Integer value"⟩),
    ("float", ⟨"float", .BASIC, .cls "float", ["float", "number", "any"], "Floating point value"⟩),
    ("boolean", ⟨"boolean", .BASIC, .cls "bool", ["boolean", "any"], "Boolean value"⟩),
    ("null", ⟨"null", .BASIC, .cls "NoneType", ["null", "any"], "Null value"⟩),
    ("list", ⟨"list", .COLLECTION, .cls "list", ["list", "array", "any"], "List of items"⟩),
    ("array", ⟨"array", .COLLECTION, .cls "list", ["array", "list", "any"], "Array of items"⟩),
    ("tuple", ⟨"tuple", .COLLECTION, .cls "tuple", ["tuple", "list", "array", "any"], "Tuple of items"⟩),
    ("set", ⟨"set", .COLLECTION, .cls "set", ["set", "list", "array", "any"], "Set of items"⟩),
    ("dict", ⟨"dict", .COLLECTION, .cls "dict", ["dict", "object", "any"], "Dictionary"⟩),
    ("object", ⟨"object", .COLLECTION, .cls "dict", ["object", "dict", "any"], "Object"⟩),
    ("file", ⟨"file", .SPECIAL, .tag "file", ["file", "any"], "File object"⟩),
    ("image", ⟨"image", .SPECIAL, .tag "image", ["image", "file", "any"], "Image file"⟩),
    ("audio", ⟨"audio", .SPECIAL, .tag "audio", ["audio", "file", "any"], "Audio file"⟩),
    ("video", ⟨"video", .SPECIAL, .tag "video", ["video", "file", "any"], "Video file"⟩),
    ("dataframe", ⟨"dataframe", .SPECIAL, .tag "pandas.DataFrame", ["dataframe", "object", "any"], "Pandas DataFrame"⟩),
    ("tensor", ⟨"tensor", .SPECIAL, .tag "torch.Tensor", ["tensor", "numpy_array", "any"], "PyTorch Tensor"⟩),
    ("numpy_array", ⟨"numpy_array", .SPECIAL, .tag "numpy.ndarray", ["numpy_array", "tensor", "any"], "NumPy Array"⟩),
    ("any", ⟨"any", .BASIC, .cls "object", ["any"], "Any type"⟩) ]

/-- Python `name in self.type_registry` (dictionary key membership). -/
def registered (name : String) : Bool :=
  (type_registry.find? (fun p => p.1 == name)).isSome

/-- The keys of the backend type registry. -/
def registryKeys : List String := type_registry.map (·.1)

/-- `self.type_compatibility.get(t, [])` where `_build_compatibility_matrix`
maps each registered name to its `TypeInfo.compatible_types`. -/
def type_compatibility (name : String) : List String :=
  match type_registry.find? (fun p => p.1 == name) with
  | some p => p.2.compatible_types
  | none => []

/-- Backend `TypeValidationService.are_types_compatible`. -/
def are_types_compatible (output_type input_type : String) : Bool :=
  if !(registered output_type) || !(registered input_type) then
    false
  else if output_type == "any" || input_type == "any" then
    true
  else
    (type_compatibility output_type).contains input_type

/-- Backend `TypeValidationService.get_compatible_types`. -/
def get_compatible_types (output_type : String) : List String :=
  if !(registered output_type) then []
  else type_compatibility output_type

/-! ## Frontend `TypeValidationService` (TypeScript) -/

/-- The frontend service's `typeCompatibility` record (note: it lists fewer
types than the backend registry — no `array`, `tuple`, `set`, `null`,
`object`, `image`, `audio`, `video`, and no `any` key). -/
def typeCompatibility : List (String × List String) :=
  [ ("string", ["string", "any"]),
    ("number", ["number", "integer", "float", "any"]),
    ("integer", ["integer", "number", "any"]),
    ("float", ["float", "number", "any"]),
    ("boolean", ["boolean", "any"]),
    ("list", ["list", "array", "any"]),
    ("dict", ["dict", "object", "any"]),
    ("file", ["file", "any"]),
    ("dataframe", ["dataframe", "object", "any"]),
    ("tensor", ["tensor", "numpy_array", "any"]),
    ("numpy_array", ["numpy_array", "tensor", "any"]) ]

/-- `this.typeCompatibility[outputType] || []`. -/
def frontendCompat (outputType : String) : List String :=
  match typeCompatibility.find? (fun p => p.1 == outputType) with
  | some p => p.2
  | none => []

/-- The keys of the frontend compatibility table. -/
def frontendKeys : List String := typeCompatibility.map (·.1)

/-- Frontend `TypeValidationService.areTypesCompatible`. -/
def areTypesCompatible (outputType inputType : String) : Bool :=
  if outputType == "any" || inputType == "any" then
    true
  else
    (frontendCompat outputType).contains inputType

/-- The compatibility predicate as the spec words it: `isCompatible(a, b)`
holds iff `a == b`, or either side is the universal type `any`, or `b`
appears in `a`'s declared compatible set `tbl a`.  Stated over an arbitrary
compatible-set table so it can be compared with both services. -/
def specCompatible (tbl : String → List String) (a b : String) : Prop :=
  a = b ∨ a = "any" ∨ b = "any" ∨ b ∈ tbl a

instance (tbl : String → List String) (a b : String) :
    Decidable (specCompatible tbl a b) := by
  unfold specCompatible
  infer_instance

/-! ## Node-connection and workflow validation (backend) -/

/-- A node port: the dictionaries under a node's `outputs` / `inputs` keys,
read through their `'name'` and `'type'` entries. -/
structure Port where
  name : String
  type : String
deriving DecidableEq, Repr

/-- A workflow node as read by the validators: `'id'`, `'outputs'`,
`'inputs'`. -/
structure Node where
  id : String
  outputs : List Port
  inputs : List Port
deriving DecidableEq, Repr

/-- One endpoint of a connection.  The validator reads only `'nodeId'`;
the `port` field models the port name a connection may carry, which the
code never consults. -/
structure ConnEndpoint where
  nodeId : String
  port : String
deriving DecidableEq, Repr

/-- A workflow connection: `connection['source']` / `connection['target']`. -/
structure Connection where
  source : ConnEndpoint
  target : ConnEndpoint
deriving DecidableEq, Repr

/-- The per-pair record `connection_info` built inside
`validate_node_connection` (`suggestions` is `[]` on the compatible branch,
where the code sets no such key). -/
structure ConnectionInfo where
  source_output : Port
  target_input : Port
  compatible : Bool
  reason : String
  suggestions : List String
deriving DecidableEq, Repr

/-- The `connection_info` dictionary for one (output, input) pair. -/
def connection_info (output input_port : Port) : ConnectionInfo :=
  if are_types_compatible output.type input_port.type then
    ⟨output, input_port, true, "Types are compatible", []⟩
  else
    ⟨output, input_port, false,
      "Cannot connect " ++ output.type ++ " to " ++ input_port.type,
      get_compatible_types output.type⟩

/-- Return value of `validate_node_connection`. -/
structure NodeConnResult where
  valid : Bool
  valid_connections : List ConnectionInfo
  invalid_connections : List ConnectionInfo
  can_connect : Bool
deriving DecidableEq, Repr

/-- Backend `TypeValidationService.validate_node_connection`: the double
loop over every output of the source node and every input of the target
node. -/
def validate_node_connection (source_node target_node : Node) : NodeConnResult :=
  let infos := source_node.outputs.flatMap
    (fun output => target_node.inputs.map (fun input_port => connection_info output input_port))
  let valids := infos.filter (fun ci => ci.compatible)
  let invalids := infos.filter (fun ci => !ci.compatible)
  ⟨decide (valids.length > 0), valids, invalids, decide (valids.length > 0)⟩

/-- An entry of the `errors` list of `validate_workflow_connections`
(`details` is `[]` for the `missing_node` error, where the code sets no
such key). -/
structure WError where
  type : String
  message : String
  details : List ConnectionInfo
deriving DecidableEq, Repr

/-- Return value of `validate_workflow_connections`. -/
structure ValidationResults where
  valid : Bool
  errors : List WError
  warnings : List WError
  connection_validations : List (Connection × NodeConnResult)
deriving DecidableEq, Repr

/-- A workflow as read by the validator: `'nodes'` and `'connections'`. -/
structure Workflow where
  nodes : List Node
  connections : List Connection
deriving DecidableEq, Repr

/-- `WorkflowValidationService._find_node_by_id`. -/
def find_node_by_id (nodes : List Node) (node_id : String) : Option Node :=
  nodes.find? (fun n => n.id == node_id)

/-- One iteration of the loop in `validate_workflow_connections`. -/
def processConnection (nodes : List Node) (acc : ValidationResults)
    (connection : Connection) : ValidationResults :=
  match find_node_by_id nodes connection.source.nodeId,
        find_node_by_id nodes connection.target.nodeId with
  | some source_node, some target_node =>
    let cv := validate_node_connection source_node target_node
    let acc := { acc with
      connection_validations := acc.connection_validations ++ [(connection, cv)] }
    if cv.can_connect then acc
    else
      { acc with
        errors := acc.errors ++
          [⟨"incompatible_types",
            "Incompatible types in connection " ++ connection.source.nodeId
              ++ " -> " ++ connection.target.nodeId,
            cv.invalid_connections⟩],
        valid := false }
  | _, _ =>
    { acc with
      errors := acc.errors ++
        [⟨"missing_node",
          "Node not found for connection " ++ connection.source.nodeId
            ++ " -> " ++ connection.target.nodeId, []⟩],
      valid := false }

/-- Backend `WorkflowValidationService.validate_workflow_connections`. -/
def validate_workflow_connections (workflow_data : Workflow) : ValidationResults :=
  workflow_data.connections.foldl (processConnection workflow_data.nodes)
    ⟨true, [], [], []⟩

/-- The error entries one connection contributes (empty when the connection
validates, one entry otherwise): the loop body's effect on `errors`. -/
def connErrors (nodes : List Node) (connection : Connection) : List WError :=
  match find_node_by_id nodes connection.source.nodeId,
        find_node_by_id nodes connection.target.nodeId with
  | some source_node, some target_node =>
    let cv := validate_node_connection source_node target_node
    if cv.can_connect then []
    else
      [⟨"incompatible_types",
        "Incompatible types in connection " ++ connection.source.nodeId
          ++ " -> " ++ connection.target.nodeId,
        cv.invalid_connections⟩]
  | _, _ =>
    [⟨"missing_node",
      "Node not found for connection " ++ connection.source.nodeId
        ++ " -> " ++ connection.target.nodeId, []⟩]

/-- Whether one connection passes the loop body without adding an error. -/
def connOk (nodes : List Node) (connection : Connection) : Bool :=
  match find_node_by_id nodes connection.source.nodeId,
        find_node_by_id nodes connection.target.nodeId with
  | some source_node, some target_node =>
    (validate_node_connection source_node target_node).can_connect
  | _, _ => false

/-- A connection whose two nodes resolve but whose node pair has no
compatible (output, input) port pair: the condition under which the loop
records an `incompatible_types` error. -/
def incompatB (nodes : List Node) (connection : Connection) : Bool :=
  match find_node_by_id nodes connection.source.nodeId,
        find_node_by_id nodes connection.target.nodeId with
  | some source_node, some target_node =>
    !(validate_node_connection source_node target_node).can_connect
  | _, _ => false

/-! ## Data-flow codec: `TypeConverter` (`Qflow_Development_Plan.md`)

The converter moves Python values across the wire as a dict
`{"type": tag, "value": payload}`.  Python's `json` and `pickle` modules
are modelled at the abstraction level the claims need: `json.dumps` maps a
value to a JSON tree (with Python's documented coercions: tuples become
arrays, non-string keys become strings, unsupported values raise
`TypeError`) wrapped as well-formed text, `json.loads` recovers the tree
from well-formed text and raises on malformed text, and `pickle` is an
object-graph-preserving bijection denoted by the value the bytes decode
to. -/

/-- An in-memory Python value, as far as the converter inspects one.  The
`float` payload is carried opaquely (the converter never computes with
floats, it only passes them through).  `obj` is any other (picklable)
Python object. -/
inductive PyValue where
  | str (s : String)
  | int (n : Int)
  | float (litRepr : String)
  | bool (b : Bool)
  | pynone
  | list (xs : List PyValue)
  | tuple (xs : List PyValue)
  | set (xs : List PyValue)
  | dict (entries : List (PyValue × PyValue))
  | obj (clsName : String) (objId : Nat)
deriving Repr

/-- A JSON tree, the image of `json.dumps` before printing. -/
inductive Json where
  | null
  | bool (b : Bool)
  | int (n : Int)
  | float (litRepr : String)
  | str (s : String)
  | arr (xs : List Json)
  | obj (entries : List (String × Json))
deriving Repr

/-- A Python `str` holding JSON text: either the well-formed print of a
tree, or malformed text on which `json.loads` raises. -/
inductive JsonText where
  | wellFormed (j : Json)
  | malformed (raw : String)
deriving Repr

/-- Whether a dict key is a Python `str`. -/
def isStrKey : PyValue → Bool
  | .str _ => true
  | _ => false

/-- `json.dumps` key coercion: str keys pass through; int, float, bool and
None keys are stringified; any other key raises `TypeError` (`none`). -/
def keyToString : PyValue → Option String
  | .str s => some s
  | .int n => some (toString n)
  | .float litRepr => some litRepr
  | .bool b => some (cond b "true" "false")
  | .pynone => some "null"
  | _ => none

mutual

/-- `json.dumps`, tree part: serializable values map to their JSON tree;
`none` models the `TypeError` raised on sets and arbitrary objects.
Tuples are serialized as arrays (Python's documented behavior). -/
def pyToJson : PyValue → Option Json
  | .str s => some (.str s)
  | .int n => some (.int n)
  | .float litRepr => some (.float litRepr)
  | .bool b => some (.bool b)
  | .pynone => some .null
  | .list xs => (pyListToJson xs).map .arr
  | .tuple xs => (pyListToJson xs).map .arr
  | .set _ => none
  | .dict entries => (pyDictToJson entries).map .obj
  | .obj _ _ => none

/-- `json.dumps` over the elements of a list or tuple. -/
def pyListToJson : List PyValue → Option (List Json)
  | [] => some []
  | x :: xs =>
    match pyToJson x, pyListToJson xs with
    | some j, some js => some (j :: js)
    | _, _ => none

/-- `json.dumps` over the entries of a dict, coercing keys. -/
def pyDictToJson : List (PyValue × PyValue) → Option (List (String × Json))
  | [] => some []
  | (k, v) :: rest =>
    match keyToString k, pyToJson v, pyDictToJson rest with
    | some ks, some jv, some jrest => some ((ks, jv) :: jrest)
    | _, _, _ => none

end

mutual

/-- `json.loads`, tree part: every JSON tree maps back to a Python value
(arrays to lists, objects to dicts with string keys). -/
def jsonToPy : Json → PyValue
  | .null => .pynone
  | .bool b => .bool b
  | .int n => .int n
  | .float litRepr => .float litRepr
  | .str s => .str s
  | .arr xs => .list (jsonArrToPy xs)
  | .obj entries => .dict (jsonObjToPy entries)

/-- `json.loads` over array elements. -/
def jsonArrToPy : List Json → List PyValue
  | [] => []
  | x :: xs => jsonToPy x :: jsonArrToPy xs

/-- `json.loads` over object entries. -/
def jsonObjToPy : List (String × Json) → List (PyValue × PyValue)
  | [] => []
  | (k, v) :: rest => (.str k, jsonToPy v) :: jsonObjToPy rest

end

/-- The object stored under the `"value"` key of the n8n wire dict: an
ordinary Python object, a JSON-text `str`, a `bytes` pickle (denoted by the
value it unpickles to), a corrupt `bytes` object, or the spec's
content-addressed blob reference descriptor.  `blobRef` is modelled from
the spec (§4.2 Data Flow Codec: a reference descriptor carrying id, size
and checksum): it is part of the wire-value space precisely so that its
absence from every encoder output is statable; no converter branch
produces or consumes it. -/
inductive PyObject where
  | val (v : PyValue)
  | jsonText (t : JsonText)
  | pickleBytes (v : PyValue)
  | badBytes (raw : String)
  | blobRef (id : String) (size : Nat) (checksum : String)
deriving Repr

/-- Errors the Python converter can raise: `json.dumps`/`json.loads`
`TypeError`, `json.JSONDecodeError` on malformed text, and pickle's
`UnpicklingError` on corrupt bytes.  The code defines no `CodecError` or
`TypeMismatch` error of its own. -/
inductive PyError where
  | typeError (msg : String)
  | jsonDecodeError
  | unpicklingError
deriving DecidableEq, Repr

/-- The n8n wire dict `{"type": ..., "value": ...}`. -/
structure N8nData where
  type : String
  value : PyObject
deriving Repr

/-- `TypeConverter.python_to_n8n`: the `isinstance` cascade — scalars to
`"simple"`, lists and dicts to `"json"` text, everything else to
`"pickle"` bytes. -/
def python_to_n8n (python_data : PyValue) : Except PyError N8nData :=
  match python_data with
  | .str _ | .int _ | .float _ | .bool _ =>
    .ok ⟨"simple", .val python_data⟩
  | .list _ | .dict _ =>
    match pyToJson python_data with
    | some j => .ok ⟨"json", .jsonText (.wellFormed j)⟩
    | none => .error (.typeError "not JSON serializable")
  | _ => .ok ⟨"pickle", .pickleBytes python_data⟩

set_option linter.unusedVariables false in
/-- `TypeConverter.n8n_to_python`.  The `expected_type` parameter is
accepted (as in the source signature) and, as in the source body, never
read. -/
def n8n_to_python (n8n_data : N8nData) (expected_type : String) :
    Except PyError PyObject :=
  let data_type := n8n_data.type
  let value := n8n_data.value
  if data_type == "simple" then
    .ok value
  else if data_type == "json" then
    match value with
    | .jsonText (.wellFormed j) => .ok (.val (jsonToPy j))
    | .jsonText (.malformed _) => .error .jsonDecodeError
    | _ => .error (.typeError "the JSON object must be str, bytes or bytearray")
  else if data_type == "pickle" then
    match value with
    | .pickleBytes v => .ok (.val v)
    | .badBytes _ => .error .unpicklingError
    | _ => .error (.typeError "a bytes-like object is required")
  else
    .ok value

/-- The strategy table the encoder actually implements, read off the
`isinstance` cascade: a function of the value's runtime type (head
constructor) alone — no size is consulted anywhere. -/
def wireStrategy : PyValue → String
  | .str _ | .int _ | .float _ | .bool _ => "simple"
  | .list _ | .dict _ => "json"
  | _ => "pickle"

mutual

/-- Values whose JSON image decodes back to the same value: scalars and
`None`; lists of such values; dicts with string keys and such values.
Tuples fail (they come back as lists), sets and objects fail to serialize
at all. -/
def jsonFaithful : PyValue → Bool
  | .str _ | .int _ | .float _ | .bool _ | .pynone => true
  | .list xs => jsonFaithfulList xs
  | .tuple _ => false
  | .set _ => false
  | .dict entries => jsonFaithfulDict entries
  | .obj _ _ => false

/-- `jsonFaithful` over list elements. -/
def jsonFaithfulList : List PyValue → Bool
  | [] => true
  | x :: xs => jsonFaithful x && jsonFaithfulList xs

/-- `jsonFaithful` over dict entries: string keys, faithful values. -/
def jsonFaithfulDict : List (PyValue × PyValue) → Bool
  | [] => true
  | (k, v) :: rest => isStrKey k && jsonFaithful v && jsonFaithfulDict rest

end

/-- Values on which the converter round-trips: everything except values
routed through the JSON branch (top-level lists and dicts) whose content
is not JSON-faithful. -/
def roundtrippable : PyValue → Bool
  | .list xs => jsonFaithfulList xs
  | .dict entries => jsonFaithfulDict entries
  | _ => true

/-! ## Type inference from runtime values -/

/-- Python `value is None`. -/
def py_is_none : PyValue → Bool
  | .pynone => true
  | _ => false

/-- Python `isinstance(value, bool)`. -/
def isinstance_bool : PyValue → Bool
  | .bool _ => true
  | _ => false

/-- Python `isinstance(value, int)` — true for `bool` values too, since
Python's `bool` is a subclass of `int`. -/
def isinstance_int : PyValue → Bool
  | .int _ => true
  | .bool _ => true
  | _ => false

/-- Python `isinstance(value, float)`. -/
def isinstance_float : PyValue → Bool
  | .float _ => true
  | _ => false

/-- Python `isinstance(value, str)`. -/
def isinstance_str : PyValue → Bool
  | .str _ => true
  | _ => false

/-- Python `isinstance(value, list)`. -/
def isinstance_list : PyValue → Bool
  | .list _ => true
  | _ => false

/-- Python `isinstance(value, tuple)`. -/
def isinstance_tuple : PyValue → Bool
  | .tuple _ => true
  | _ => false

/-- Python `isinstance(value, set)`. -/
def isinstance_set : PyValue → Bool
  | .set _ => true
  | _ => false

/-- Python `isinstance(value, dict)`. -/
def isinstance_dict : PyValue → Bool
  | .dict _ => true
  | _ => false

/-- Backend `TypeValidationService.infer_type_from_value`: the
`if`/`elif` cascade in source order — `None`, `bool`, `int`, `float`,
`str`, `list`, `tuple`, `set`, `dict`, else `'object'`. -/
def infer_type_from_value (value : PyValue) : String :=
  if py_is_none value then "null"
  else if isinstance_bool value then "boolean"
  else if isinstance_int value then "integer"
  else if isinstance_float value then "float"
  else if isinstance_str value then "string"
  else if isinstance_list value then "list"
  else if isinstance_tuple value then "tuple"
  else if isinstance_set value then "set"
  else if isinstance_dict value then "dict"
  else "object"

/-! # Theorems -/

/-! ## Helper lemmas on the compatibility services -/

/-- `registered` is key membership in the registry literal. -/
theorem registered_iff (a : String) : registered a = true ↔ a ∈ registryKeys := by
  unfold registered registryKeys
  rw [List.find?_isSome]
  constructor
  · rintro ⟨x, hx, hp⟩
    exact List.mem_map.mpr ⟨x, hx, by simpa using hp⟩
  · intro h
    obtain ⟨x, hx, rfl⟩ := List.mem_map.mp h
    exact ⟨x, hx, by simp⟩

/-- Every registered type's declared compatible set contains the type
itself (read off the registry literal). -/
theorem mem_own_compat : ∀ a ∈ registryKeys, a ∈ type_compatibility a := by decide

/-- Every key of the frontend table lists itself among its compatible
types. -/
theorem mem_own_frontendCompat : ∀ a ∈ frontendKeys, a ∈ frontendCompat a := by decide

/-- Characterization of the backend check: true exactly when both names
are registered and (either side is `any`, or the input type appears in the
output type's declared compatible set).  Only the output side's set is
ever consulted. -/
theorem are_types_compatible_iff (a b : String) :
    are_types_compatible a b = true ↔
      registered a = true ∧ registered b = true ∧
        (a = "any" ∨ b = "any" ∨ b ∈ type_compatibility a) := by
  unfold are_types_compatible
  by_cases ha : registered a
  · by_cases hb : registered b
    · by_cases h1 : a = "any"
      · simp [ha, hb, h1]
      · by_cases h2 : b = "any"
        · simp [ha, hb, h1, h2]
        · simp [ha, hb, h1, h2, List.elem_iff]
    · have hb' : registered b = false := by simpa using hb
      simp [ha, hb']
  · have ha' : registered a = false := by simpa using ha
    simp [ha']

/-- Characterization of the frontend check: true exactly when either side
is `any` or the input type appears in the output type's table row. -/
theorem areTypesCompatible_iff (a b : String) :
    areTypesCompatible a b = true ↔ (a = "any" ∨ b = "any" ∨ b ∈ frontendCompat a) := by
  unfold areTypesCompatible
  by_cases h1 : a = "any"
  · simp [h1]
  · by_cases h2 : b = "any"
    · simp [h1, h2]
    · simp [h1, h2, List.elem_iff]

/-! ## C1 -/

/-- C1 (counterexample): quantified over all pairs of type names, the
claimed iff fails.  `tuple` is a type name of the system (it is registered
in the backend registry), `tuple == tuple`, yet the frontend
`areTypesCompatible('tuple', 'tuple')` returns `false`, because `tuple` is
not a key of the frontend's (smaller) table and the function has no
equality shortcut. -/
theorem isCompatible_spec_counterexample :
    ¬ (areTypesCompatible "tuple" "tuple" = true ↔
        specCompatible frontendCompat "tuple" "tuple") := by
  decide

/-- C1 (amended): the claimed iff — equality, or a universal side, or
membership in the output type's declared compatible set — holds on each
service's declared domain: for the frontend whenever the output type is a
key of its table (or is `any` itself), with the input type arbitrary; for
the backend whenever both names are registered.  (Outside those domains
the frontend answers `true` only via the `any` shortcut and the backend
answers `false`.) -/
theorem isCompatible_spec_on_declared_types (a b : String) :
    ((a ∈ frontendKeys ∨ a = "any") →
       (areTypesCompatible a b = true ↔ specCompatible frontendCompat a b)) ∧
    (registered a = true → registered b = true →
       (are_types_compatible a b = true ↔ specCompatible type_compatibility a b)) := by
  constructor
  · rintro (ha | rfl)
    · rw [areTypesCompatible_iff]
      unfold specCompatible
      constructor
      · tauto
      · rintro (rfl | h | h | h)
        · exact Or.inr (Or.inr (mem_own_frontendCompat a ha))
        · exact Or.inl h
        · exact Or.inr (Or.inl h)
        · exact Or.inr (Or.inr h)
    · rw [areTypesCompatible_iff]
      unfold specCompatible
      tauto
  · intro ha hb
    rw [are_types_compatible_iff]
    unfold specCompatible
    constructor
    · tauto
    · rintro (rfl | h | h | h)
      · exact ⟨ha, hb, Or.inr (Or.inr (mem_own_compat a ((registered_iff a).1 ha)))⟩
      · exact ⟨ha, hb, Or.inl h⟩
      · exact ⟨ha, hb, Or.inr (Or.inl h)⟩
      · exact ⟨ha, hb, Or.inr (Or.inr h)⟩

/-- C1 (witness): the amended iff instantiated on the frontend at
`('string', 'integer')` and on the backend at `('tuple', 'list')`. -/
theorem isCompatible_spec_on_declared_types_witness :
    (areTypesCompatible "string" "integer" = true ↔
      specCompatible frontendCompat "string" "integer") ∧
    (are_types_compatible "tuple" "list" = true ↔
      specCompatible type_compatibility "tuple" "list") :=
  ⟨(isCompatible_spec_on_declared_types "string" "integer").1 (Or.inl (by decide)),
   (isCompatible_spec_on_declared_types "tuple" "list").2 rfl rfl⟩

/-! ## C3 -/

/-- C3: for every type `T` registered in the backend registry,
`are_types_compatible T 'any'` and `are_types_compatible 'any' T` are both
true. -/
theorem any_compatible_both_directions (T : String) (hT : registered T = true) :
    are_types_compatible T "any" = true ∧ are_types_compatible "any" T = true := by
  have hany : registered "any" = true := rfl
  exact ⟨(are_types_compatible_iff T "any").2 ⟨hT, hany, Or.inr (Or.inl rfl)⟩,
         (are_types_compatible_iff "any" T).2 ⟨hany, hT, Or.inl rfl⟩⟩

/-- C3 (witness): instantiated at the registered type `tensor`. -/
theorem any_compatible_both_directions_witness :
    are_types_compatible "tensor" "any" = true ∧
    are_types_compatible "any" "tensor" = true :=
  any_compatible_both_directions "tensor" rfl

/-! ## C7 -/

/-- C7: the backend check consults, besides both names' registration and
the `any` shortcut, only the output type's declared compatible set (the
characterization's right-hand side mentions `type_compatibility a` and
never `type_compatibility b`); and the relation is indeed asymmetric in
the shipped table: `tuple → list` is compatible while `list → tuple` is
not. -/
theorem compatibility_directional_and_asymmetric :
    (are_types_compatible "tuple" "list" = true ∧
     are_types_compatible "list" "tuple" = false) ∧
    (∀ a b : String,
      are_types_compatible a b = true ↔
        registered a = true ∧ registered b = true ∧
          (a = "any" ∨ b = "any" ∨ b ∈ type_compatibility a)) :=
  ⟨⟨rfl, rfl⟩, are_types_compatible_iff⟩

/-! ## C9 -/

/-- C9: whenever either name is absent from the backend registry, the
backend check returns `false` — including for a pair of equal unregistered
names, and when the other side is the universal type `any`. -/
theorem unregistered_always_incompatible (a b : String)
    (h : registered a = false ∨ registered b = false) :
    are_types_compatible a b = false := by
  unfold are_types_compatible
  rcases h with h | h <;> simp [h]

/-- C9 (witness): an unregistered name against itself and against
`any`. -/
theorem unregistered_always_incompatible_witness :
    are_types_compatible "custom_type" "custom_type" = false ∧
    are_types_compatible "custom_type" "any" = false ∧
    are_types_compatible "any" "custom_type" = false :=
  ⟨unregistered_always_incompatible "custom_type" "custom_type" (Or.inl rfl),
   unregistered_always_incompatible "custom_type" "any" (Or.inl rfl),
   unregistered_always_incompatible "any" "custom_type" (Or.inr rfl)⟩

/-! ## C8: cross-product node-connection validation -/

/-- The `compatible` field of a pair record is the compatibility check on
the two port types. -/
theorem connection_info_compatible (o i : Port) :
    (connection_info o i).compatible = are_types_compatible o.type i.type := by
  unfold connection_info
  split <;> simp_all

/-- C8: `validate_node_connection` works on the full cross-product of the
source node's outputs and the target node's inputs: `can_connect` is true
iff SOME (output, input) pair is compatible; every incompatible pair's
record is listed in `invalid_connections`; and the workflow-level loop
body depends on a connection only through its two node ids, never through
the port it names. -/
theorem cross_product_connection_validation (s t : Node) :
    ((validate_node_connection s t).can_connect = true ↔
        ∃ o ∈ s.outputs, ∃ i ∈ t.inputs, are_types_compatible o.type i.type = true) ∧
    (∀ o ∈ s.outputs, ∀ i ∈ t.inputs, are_types_compatible o.type i.type = false →
        connection_info o i ∈ (validate_node_connection s t).invalid_connections) ∧
    (∀ (nodes : List Node) (c c' : Connection),
        c.source.nodeId = c'.source.nodeId → c.target.nodeId = c'.target.nodeId →
        connErrors nodes c = connErrors nodes c' ∧ connOk nodes c = connOk nodes c') := by
  refine ⟨?_, ?_, ?_⟩
  · unfold validate_node_connection
    simp only [decide_eq_true_eq, List.length_pos_iff_exists_mem, List.mem_filter,
      List.mem_flatMap, List.mem_map]
    constructor
    · rintro ⟨ci, ⟨o, ho, i, hi, rfl⟩, hc⟩
      exact ⟨o, ho, i, hi, by rwa [connection_info_compatible] at hc⟩
    · rintro ⟨o, ho, i, hi, hc⟩
      exact ⟨connection_info o i, ⟨o, ho, i, hi, rfl⟩,
        by rwa [connection_info_compatible]⟩
  · intro o ho i hi hinc
    unfold validate_node_connection
    simp only [List.mem_filter, List.mem_flatMap, List.mem_map]
    exact ⟨⟨o, ho, i, hi, rfl⟩, by simp [connection_info_compatible, hinc]⟩
  · intro nodes c c' h1 h2
    unfold connErrors connOk
    rw [h1, h2]
    exact ⟨rfl, rfl⟩

/-- C8 (witness): a `string` output against an `integer` input is an
incompatible pair and its record is reported. -/
theorem cross_product_connection_validation_witness :
    connection_info ⟨"out", "string"⟩ ⟨"in", "integer"⟩ ∈
      (validate_node_connection ⟨"A", [⟨"out", "string"⟩], []⟩
        ⟨"B", [], [⟨"in", "integer"⟩]⟩).invalid_connections :=
  (cross_product_connection_validation _ _).2.1 ⟨"out", "string"⟩ (by simp)
    ⟨"in", "integer"⟩ (by simp) rfl

/-! ## C2: batch workflow validation -/

/-- The loop body appends exactly the per-connection errors. -/
theorem processConnection_errors (nodes : List Node) (acc : ValidationResults)
    (c : Connection) :
    (processConnection nodes acc c).errors = acc.errors ++ connErrors nodes c := by
  unfold processConnection connErrors
  cases find_node_by_id nodes c.source.nodeId <;>
    cases find_node_by_id nodes c.target.nodeId <;> simp
  split <;> simp

/-- The loop body conjoins the per-connection verdict onto `valid`. -/
theorem processConnection_valid (nodes : List Node) (acc : ValidationResults)
    (c : Connection) :
    (processConnection nodes acc c).valid = (acc.valid && connOk nodes c) := by
  unfold processConnection connOk
  cases find_node_by_id nodes c.source.nodeId <;>
    cases find_node_by_id nodes c.target.nodeId <;> simp
  split <;> simp_all

/-- Loop invariant: after folding, `errors` is the initial list followed by
every connection's contributed errors, in connection order. -/
theorem foldl_validate_errors (nodes : List Node) (cs : List Connection)
    (acc : ValidationResults) :
    (cs.foldl (processConnection nodes) acc).errors
      = acc.errors ++ cs.flatMap (connErrors nodes) := by
  induction cs generalizing acc with
  | nil => simp
  | cons c cs ih =>
    simp [List.foldl_cons, ih, processConnection_errors]

/-- Loop invariant: after folding, `valid` is the initial flag conjoined
with every connection's verdict. -/
theorem foldl_validate_valid (nodes : List Node) (cs : List Connection)
    (acc : ValidationResults) :
    (cs.foldl (processConnection nodes) acc).valid
      = (acc.valid && cs.all (connOk nodes)) := by
  induction cs generalizing acc with
  | nil => simp
  | cons c cs ih =>
    simp [List.foldl_cons, ih, processConnection_valid, Bool.and_assoc]

/-- An incompatible connection contributes exactly one
`incompatible_types` error, naming its two node ids. -/
theorem connErrors_of_incompat (nodes : List Node) (c : Connection)
    (h : incompatB nodes c = true) :
    ∃ d, connErrors nodes c =
      [⟨"incompatible_types",
        "Incompatible types in connection " ++ c.source.nodeId ++ " -> " ++ c.target.nodeId,
        d⟩] := by
  unfold incompatB at h
  unfold connErrors
  cases hs : find_node_by_id nodes c.source.nodeId <;>
    cases ht : find_node_by_id nodes c.target.nodeId <;> rw [hs, ht] at h <;> simp_all

/-- An incompatible connection fails the per-connection verdict. -/
theorem connOk_of_incompat (nodes : List Node) (c : Connection)
    (h : incompatB nodes c = true) : connOk nodes c = false := by
  unfold incompatB at h
  unfold connOk
  cases hs : find_node_by_id nodes c.source.nodeId <;>
    cases ht : find_node_by_id nodes c.target.nodeId <;>
    rw [hs, ht] at h <;> simp_all

/-- Each connection contributes one `incompatible_types` error when
incompatible and none otherwise. -/
theorem connErrors_countP (nodes : List Node) (c : Connection) :
    (connErrors nodes c).countP (fun e => e.type == "incompatible_types")
      = if incompatB nodes c then 1 else 0 := by
  unfold connErrors incompatB
  cases find_node_by_id nodes c.source.nodeId <;>
    cases find_node_by_id nodes c.target.nodeId <;> simp
  split <;> simp_all [List.countP_cons]

/-- Summing the contributions: the validator's `incompatible_types` error
count equals the number of incompatible connections. -/
theorem flatMap_connErrors_countP (nodes : List Node) (cs : List Connection) :
    (cs.flatMap (connErrors nodes)).countP (fun e => e.type == "incompatible_types")
      = cs.countP (incompatB nodes) := by
  induction cs with
  | nil => simp
  | cons c cs ih =>
    simp only [List.flatMap_cons, List.countP_append, ih, connErrors_countP,
      List.countP_cons]
    by_cases h : incompatB nodes c = true
    · simp only [if_pos h]
      omega
    · simp only [if_neg h]
      omega

/-- C2: if a workflow contains a type-incompatible connection (one whose
resolved node pair has no compatible port pair), validation returns
`valid = false`, its error list contains an `incompatible_types` entry
naming that connection, and — batch, not first-failure — the number of
`incompatible_types` entries equals the number of incompatible
connections, so every one of them is reported.  The validator is a pure
function over the workflow object: no node is executed. -/
theorem batch_validation_reports_all (w : Workflow) (c : Connection)
    (hc : c ∈ w.connections) (hbad : incompatB w.nodes c = true) :
    (validate_workflow_connections w).valid = false ∧
    (∃ e ∈ (validate_workflow_connections w).errors,
        e.type = "incompatible_types" ∧
        e.message = "Incompatible types in connection " ++ c.source.nodeId
          ++ " -> " ++ c.target.nodeId) ∧
    (validate_workflow_connections w).errors.countP
        (fun e => e.type == "incompatible_types")
      = w.connections.countP (incompatB w.nodes) := by
  unfold validate_workflow_connections
  refine ⟨?_, ?_, ?_⟩
  · rw [foldl_validate_valid]
    have hok := connOk_of_incompat w.nodes c hbad
    cases hall : w.connections.all (connOk w.nodes) with
    | false => simp
    | true =>
      have := (List.all_eq_true.mp hall) c hc
      rw [hok] at this
      cases this
  · have herr : (List.foldl (processConnection w.nodes) ⟨true, [], [], []⟩
        w.connections).errors = w.connections.flatMap (connErrors w.nodes) := by
      rw [foldl_validate_errors]
      rfl
    rw [herr]
    obtain ⟨d, hd⟩ := connErrors_of_incompat w.nodes c hbad
    exact ⟨_, List.mem_flatMap.mpr ⟨c, hc, by rw [hd]; exact List.mem_singleton.mpr rfl⟩,
      rfl, rfl⟩
  · rw [foldl_validate_errors]
    simp [flatMap_connErrors_countP]

/-- C2 (witness): a two-node workflow whose single connection links a
`string` output to an `integer` input is reported invalid with its one
incompatible connection listed. -/
theorem batch_validation_reports_all_witness :
    (validate_workflow_connections
        ⟨[⟨"A", [⟨"out", "string"⟩], []⟩, ⟨"B", [], [⟨"in", "integer"⟩]⟩],
         [⟨⟨"A", "main"⟩, ⟨"B", "main"⟩⟩]⟩).valid = false ∧
    (validate_workflow_connections
        ⟨[⟨"A", [⟨"out", "string"⟩], []⟩, ⟨"B", [], [⟨"in", "integer"⟩]⟩],
         [⟨⟨"A", "main"⟩, ⟨"B", "main"⟩⟩]⟩).errors.countP
        (fun e => e.type == "incompatible_types")
      = ([⟨⟨"A", "main"⟩, ⟨"B", "main"⟩⟩] : List Connection).countP
          (incompatB [⟨"A", [⟨"out", "string"⟩], []⟩, ⟨"B", [], [⟨"in", "integer"⟩]⟩]) :=
  ⟨(batch_validation_reports_all
      ⟨[⟨"A", [⟨"out", "string"⟩], []⟩, ⟨"B", [], [⟨"in", "integer"⟩]⟩],
       [⟨⟨"A", "main"⟩, ⟨"B", "main"⟩⟩]⟩
      ⟨⟨"A", "main"⟩, ⟨"B", "main"⟩⟩ (by simp) rfl).1,
   (batch_validation_reports_all
      ⟨[⟨"A", [⟨"out", "string"⟩], []⟩, ⟨"B", [], [⟨"in", "integer"⟩]⟩],
       [⟨⟨"A", "main"⟩, ⟨"B", "main"⟩⟩]⟩
      ⟨⟨"A", "main"⟩, ⟨"B", "main"⟩⟩ (by simp) rfl).2.2⟩

/-! ## Codec round-trip machinery -/

mutual

/-- A JSON-faithful value serializes, and its tree decodes back to it. -/
theorem jsonFaithful_roundtrip (v : PyValue) (h : jsonFaithful v = true) :
    ∃ j, pyToJson v = some j ∧ jsonToPy j = v := by
  cases v with
  | str s => exact ⟨.str s, rfl, rfl⟩
  | int n => exact ⟨.int n, rfl, rfl⟩
  | float r => exact ⟨.float r, rfl, rfl⟩
  | bool b => exact ⟨.bool b, rfl, rfl⟩
  | pynone => exact ⟨.null, rfl, rfl⟩
  | list xs =>
    obtain ⟨js, h1, h2⟩ :=
      jsonFaithfulList_roundtrip xs (by simpa [jsonFaithful] using h)
    exact ⟨.arr js, by simp [pyToJson, h1], by simp [jsonToPy, h2]⟩
  | tuple xs => simp [jsonFaithful] at h
  | set xs => simp [jsonFaithful] at h
  | dict entries =>
    obtain ⟨es, h1, h2⟩ :=
      jsonFaithfulDict_roundtrip entries (by simpa [jsonFaithful] using h)
    exact ⟨.obj es, by simp [pyToJson, h1], by simp [jsonToPy, h2]⟩
  | obj c i => simp [jsonFaithful] at h

/-- `jsonFaithful_roundtrip` for the elements of a list. -/
theorem jsonFaithfulList_roundtrip (xs : List PyValue)
    (h : jsonFaithfulList xs = true) :
    ∃ js, pyListToJson xs = some js ∧ jsonArrToPy js = xs := by
  cases xs with
  | nil => exact ⟨[], rfl, rfl⟩
  | cons x rest =>
    have hs : jsonFaithful x = true ∧ jsonFaithfulList rest = true := by
      simpa [jsonFaithfulList, Bool.and_eq_true] using h
    obtain ⟨j, h1, h2⟩ := jsonFaithful_roundtrip x hs.1
    obtain ⟨js, h3, h4⟩ := jsonFaithfulList_roundtrip rest hs.2
    exact ⟨j :: js, by simp [pyListToJson, h1, h3], by simp [jsonArrToPy, h2, h4]⟩

/-- `jsonFaithful_roundtrip` for the entries of a dict: keys are strings
and pass through the key coercion unchanged. -/
theorem jsonFaithfulDict_roundtrip (entries : List (PyValue × PyValue))
    (h : jsonFaithfulDict entries = true) :
    ∃ es, pyDictToJson entries = some es ∧ jsonObjToPy es = entries := by
  cases entries with
  | nil => exact ⟨[], rfl, rfl⟩
  | cons kv rest =>
    obtain ⟨k, v⟩ := kv
    have hs : isStrKey k = true ∧
        jsonFaithful v = true ∧ jsonFaithfulDict rest = true := by
      simpa [jsonFaithfulDict, Bool.and_eq_true, and_assoc] using h
    obtain ⟨j, h1, h2⟩ := jsonFaithful_roundtrip v hs.2.1
    obtain ⟨es, h3, h4⟩ := jsonFaithfulDict_roundtrip rest hs.2.2
    cases k with
    | str s =>
      exact ⟨(s, j) :: es, by simp [pyDictToJson, keyToString, h1, h3],
        by simp [jsonObjToPy, h2, h4]⟩
    | int n => exact absurd hs.1 (by simp [isStrKey])
    | float r => exact absurd hs.1 (by simp [isStrKey])
    | bool b => exact absurd hs.1 (by simp [isStrKey])
    | pynone => exact absurd hs.1 (by simp [isStrKey])
    | list xs => exact absurd hs.1 (by simp [isStrKey])
    | tuple xs => exact absurd hs.1 (by simp [isStrKey])
    | set xs => exact absurd hs.1 (by simp [isStrKey])
    | dict d => exact absurd hs.1 (by simp [isStrKey])
    | obj c i => exact absurd hs.1 (by simp [isStrKey])

end

/-! ## C4: codec round-trip -/

/-- C4 (counterexample): the round-trip fails on an accepted value.  The
list `[(1, 2)]` (a list holding one tuple) is accepted — `json.dumps`
serializes the tuple as a JSON array — but decoding returns `[[1, 2]]`, a
list of lists, not the original value. -/
theorem codec_roundtrip_counterexample :
    python_to_n8n (.list [.tuple [.int 1, .int 2]])
      = .ok ⟨"json", .jsonText (.wellFormed (.arr [.arr [.int 1, .int 2]]))⟩ ∧
    n8n_to_python ⟨"json", .jsonText (.wellFormed (.arr [.arr [.int 1, .int 2]]))⟩ "list"
      = .ok (.val (.list [.list [.int 1, .int 2]])) ∧
    (PyValue.list [.list [.int 1, .int 2]]) ≠ (PyValue.list [.tuple [.int 1, .int 2]]) := by
  refine ⟨?_, ?_, ?_⟩
  · simp [python_to_n8n, pyToJson, pyListToJson]
  · simp [n8n_to_python, jsonToPy, jsonArrToPy]
  · simp

/-- C4 (amended): decoding the encoding of `v` returns `v` for every
accepted value except those routed through the JSON branch (top-level
lists and dicts) whose content is not JSON-faithful — i.e. contains a
nested tuple (it comes back as a list) or a non-string dict key (it comes
back stringified).  Scalars, and everything the pickle branch carries,
round-trip unconditionally. -/
theorem codec_roundtrip (v : PyValue) (expected_type : String)
    (h : roundtrippable v = true) :
    (∃ w, python_to_n8n v = .ok w) ∧
    (∀ w, python_to_n8n v = .ok w →
       n8n_to_python w expected_type = .ok (.val v)) := by
  cases v with
  | str s =>
    exact ⟨⟨_, rfl⟩, fun w hw => by obtain rfl := Except.ok.inj hw; rfl⟩
  | int n =>
    exact ⟨⟨_, rfl⟩, fun w hw => by obtain rfl := Except.ok.inj hw; rfl⟩
  | float r =>
    exact ⟨⟨_, rfl⟩, fun w hw => by obtain rfl := Except.ok.inj hw; rfl⟩
  | bool b =>
    exact ⟨⟨_, rfl⟩, fun w hw => by obtain rfl := Except.ok.inj hw; rfl⟩
  | pynone =>
    exact ⟨⟨_, rfl⟩, fun w hw => by obtain rfl := Except.ok.inj hw; rfl⟩
  | tuple xs =>
    exact ⟨⟨_, rfl⟩, fun w hw => by obtain rfl := Except.ok.inj hw; rfl⟩
  | set xs =>
    exact ⟨⟨_, rfl⟩, fun w hw => by obtain rfl := Except.ok.inj hw; rfl⟩
  | obj c i =>
    exact ⟨⟨_, rfl⟩, fun w hw => by obtain rfl := Except.ok.inj hw; rfl⟩
  | list xs =>
    obtain ⟨j, h1, h2⟩ := jsonFaithful_roundtrip (.list xs)
      (by simpa [jsonFaithful, roundtrippable] using h)
    constructor
    · exact ⟨⟨"json", .jsonText (.wellFormed j)⟩, by simp [python_to_n8n, h1]⟩
    · intro w hw
      simp only [python_to_n8n, h1] at hw
      obtain rfl := Except.ok.inj hw
      simp [n8n_to_python, h2]
  | dict entries =>
    obtain ⟨j, h1, h2⟩ := jsonFaithful_roundtrip (.dict entries)
      (by simpa [jsonFaithful, roundtrippable] using h)
    constructor
    · exact ⟨⟨"json", .jsonText (.wellFormed j)⟩, by simp [python_to_n8n, h1]⟩
    · intro w hw
      simp only [python_to_n8n, h1] at hw
      obtain rfl := Except.ok.inj hw
      simp [n8n_to_python, h2]

/-- C4 (witness): the JSON-faithful dict `{'a': 1}` round-trips. -/
theorem codec_roundtrip_witness :
    n8n_to_python ⟨"json", .jsonText (.wellFormed (.obj [("a", .int 1)]))⟩ "dict"
      = .ok (.val (.dict [(.str "a", .int 1)])) :=
  (codec_roundtrip (.dict [(.str "a", .int 1)]) "dict"
      (by simp [roundtrippable, jsonFaithfulDict, jsonFaithful, isStrKey])).2
    ⟨"json", .jsonText (.wellFormed (.obj [("a", .int 1)]))⟩
    (by simp [python_to_n8n, pyToJson, pyDictToJson, keyToString])

/-! ## C5: decode error behavior -/

/-- C5 (counterexample): decode performs no compatibility check at all.
A wire value declared (and actually carrying) a string decodes
successfully against expected type `integer`, although `string` is not
compatible with `integer` per the resolver — where the claim requires a
`TypeMismatch` failure. -/
theorem decode_no_type_mismatch_counterexample :
    n8n_to_python ⟨"simple", .val (.str "hello")⟩ "integer"
      = .ok (.val (.str "hello")) ∧
    are_types_compatible "string" "integer" = false :=
  ⟨rfl, rfl⟩

/-- C5 (amended): `n8n_to_python` never consults `expected_type` (the
result is the same for any two expected types), so it never fails with a
`TypeMismatch`; and on malformed payloads it propagates the underlying
library's error — `json.JSONDecodeError` for the json tag,
`pickle.UnpicklingError` for the pickle tag — the code defines no
`CodecError`. -/
theorem decode_ignores_expected_type (d : N8nData) (et et' : String) :
    n8n_to_python d et = n8n_to_python d et' ∧
    (∀ s, n8n_to_python ⟨"json", .jsonText (.malformed s)⟩ et
      = .error .jsonDecodeError) ∧
    (∀ s, n8n_to_python ⟨"pickle", .badBytes s⟩ et
      = .error .unpicklingError) :=
  ⟨rfl, fun _ => rfl, fun _ => rfl⟩

/-! ## C6: encode strategy -/

/-- `pyListToJson` maps a replicated scalar list to the replicated JSON
array, whatever its length. -/
theorem pyListToJson_replicate_int (n : Nat) :
    pyListToJson (List.replicate n (.int 7)) = some (List.replicate n (.int 7)) := by
  induction n with
  | zero => rfl
  | succ n ih => simp [List.replicate_succ, pyListToJson, pyToJson, ih]

/-- C6 (counterexample): a 1000-element list is encoded wholly in-line as
JSON text.  No size threshold exists anywhere in the converter: there is
no configuration, no spill to blob storage, and no reference descriptor in
any code path. -/
theorem encode_no_size_spill_counterexample :
    python_to_n8n (.list (List.replicate 1000 (.int 7)))
      = .ok ⟨"json", .jsonText (.wellFormed (.arr (List.replicate 1000 (.int 7))))⟩ := by
  have h1 : pyToJson (.list (List.replicate 1000 (.int 7)))
      = some (.arr (List.replicate 1000 (.int 7))) := by
    simp only [pyToJson, pyListToJson_replicate_int]
    rfl
  simp only [python_to_n8n, h1]

/-- C6 (amended): `python_to_n8n` selects its wire strategy by the value's
runtime type alone — scalars to the self-describing `simple` encoding,
lists and dicts to `json` text of any size, everything else to `pickle`
binary — and no encoder output is ever a blob-reference descriptor. -/
theorem encode_strategy_by_type_only (v : PyValue) (w : N8nData)
    (h : python_to_n8n v = .ok w) :
    w.type = wireStrategy v ∧
    ∀ id size checksum, w.value ≠ .blobRef id size checksum := by
  cases v with
  | str s => obtain rfl := Except.ok.inj h; exact ⟨rfl, by simp⟩
  | int n => obtain rfl := Except.ok.inj h; exact ⟨rfl, by simp⟩
  | float r => obtain rfl := Except.ok.inj h; exact ⟨rfl, by simp⟩
  | bool b => obtain rfl := Except.ok.inj h; exact ⟨rfl, by simp⟩
  | pynone => obtain rfl := Except.ok.inj h; exact ⟨rfl, by simp⟩
  | tuple xs => obtain rfl := Except.ok.inj h; exact ⟨rfl, by simp⟩
  | set xs => obtain rfl := Except.ok.inj h; exact ⟨rfl, by simp⟩
  | obj c i => obtain rfl := Except.ok.inj h; exact ⟨rfl, by simp⟩
  | list xs =>
    rcases hj : pyToJson (.list xs) with _ | j <;>
      simp only [python_to_n8n, hj] at h
    · cases h
    · obtain rfl := Except.ok.inj h
      exact ⟨rfl, by simp⟩
  | dict entries =>
    rcases hj : pyToJson (.dict entries) with _ | j <;>
      simp only [python_to_n8n, hj] at h
    · cases h
    · obtain rfl := Except.ok.inj h
      exact ⟨rfl, by simp⟩

/-- C6 (witness): a tuple is routed to the pickle strategy. -/
theorem encode_strategy_by_type_only_witness :
    (⟨"pickle", .pickleBytes (.tuple [])⟩ : N8nData).type
      = wireStrategy (.tuple []) :=
  (encode_strategy_by_type_only (.tuple [])
    ⟨"pickle", .pickleBytes (.tuple [])⟩ rfl).1

/-! ## C10: type inference order -/

/-- C10: `infer_type_from_value` tests `bool` before `int` (Python's
`bool` is a subclass of `int`, so the order is load-bearing): every bool
infers `'boolean'` and never `'integer'`; every non-bool int infers
`'integer'`; and every value matching none of the enumerated `isinstance`
cases infers `'object'`. -/
theorem infer_bool_before_int :
    (∀ b, infer_type_from_value (.bool b) = "boolean") ∧
    (∀ v, isinstance_bool v = true → infer_type_from_value v ≠ "integer") ∧
    (∀ v, isinstance_int v = true → isinstance_bool v = false →
       infer_type_from_value v = "integer") ∧
    (∀ v, py_is_none v = false → isinstance_bool v = false →
       isinstance_int v = false → isinstance_float v = false →
       isinstance_str v = false → isinstance_list v = false →
       isinstance_tuple v = false → isinstance_set v = false →
       isinstance_dict v = false → infer_type_from_value v = "object") := by
  refine ⟨fun b => rfl, ?_, ?_, ?_⟩
  · intro v hv
    cases v <;> simp_all [isinstance_bool, infer_type_from_value, py_is_none]
  · intro v hint hbool
    cases v <;> simp_all [isinstance_bool, isinstance_int, infer_type_from_value,
      py_is_none, isinstance_float, isinstance_str, isinstance_list,
      isinstance_tuple, isinstance_set, isinstance_dict]
  · intro v h0 h1 h2 h3 h4 h5 h6 h7 h8
    cases v <;> simp_all [isinstance_bool, isinstance_int, infer_type_from_value,
      py_is_none, isinstance_float, isinstance_str, isinstance_list,
      isinstance_tuple, isinstance_set, isinstance_dict]

/-- C10 (witness): a non-bool int infers `integer`; an arbitrary object
infers `object`; `True` infers `boolean`. -/
theorem infer_bool_before_int_witness :
    infer_type_from_value (.bool true) = "boolean" ∧
    infer_type_from_value (.int 5) = "integer" ∧
    infer_type_from_value (.obj "DataFrame" 0) = "object" :=
  ⟨infer_bool_before_int.1 true,
   infer_bool_before_int.2.2.1 (.int 5) rfl rfl,
   infer_bool_before_int.2.2.2 (.obj "DataFrame" 0) rfl rfl rfl rfl rfl rfl rfl rfl rfl⟩

end Qflow
